import Mathlib

/-
  Shallow embedding of src/main.c: an incremental tri-color mark-and-sweep
  garbage collector over 64 KiB self-aligned arenas.

  Modelling conventions:
  - C `int` bitmap words are stored as Nat bit patterns below 2^32;
    bitwise ops are Nat bitwise ops. Where a stored word is read back as a
    signed int (nextcell, numunits), the model applies the two-complement
    reading toInt32, and size_t arithmetic is taken mod 2^64, so the
    integer widths of the source are preserved.
  - The metadata overlay of the source (struct arena_meta_a living in the
    union with used[], struct arena_meta_b with mark[]) is modelled at word
    granularity, matching the LP64 layout of struct arena_meta_a:
    `int nextcell` occupies bytes 0..3 of used[] (word 0), 4 bytes of
    padding, and `struct gs * gs` occupies bytes 8..15 (words 2 and 3,
    little-endian: word 2 holds the low half of the pointer). meta_b
    `int dummy` occupies mark[] word 0.
  - Pointers are Nat addresses, 0 standing for the C null pointer. Gray
    stack segments (struct gs) live in a heap keyed by address; object
    references are their byte offsets from the owning arena base, which is
    exactly the quantity `(size_t)o - (size_t)a` the source computes after
    recovering the base with get_arena (the 64 KiB natural alignment).
  - die() is modelled by an Option result: none is the fatal path.
  - malloc in gs_get is modelled by drawing a fresh nonzero address and
    counting it in freshCount; fresh segment contents are zeroed in the
    model (the source leaves them indeterminate, but every field is written
    by gs_push before any read).
-/

set_option maxRecDepth 40000

/-- ARENA_SIZE from main.c: 64 KiB. -/
def ARENA_SIZE : Nat := 64 * 1024

/-- ALLOC_UNIT from main.c: the 16-byte allocation cell. -/
def ALLOC_UNIT : Nat := 16

/-- GS_SIZE from main.c: entries per gray-stack segment. -/
def GS_SIZE : Nat := 510

/-- Number of 32-bit words in each of used[] and mark[]:
ARENA_SIZE / ALLOC_UNIT / sizeof(int) / 8 = 128. -/
def numWords : Nat := ARENA_SIZE / ALLOC_UNIT / 4 / 8

/-- sizeof(struct arena): two unions of 512 bytes each = 1024 bytes. -/
def sizeofArena : Nat := 2 * (numWords * 4)

/-- sizeof(struct obj): the gray:1 and type:7 bitfields share one byte. -/
def sizeofObj : Nat := 1

/-- struct gs from main.c: count, previous-segment pointer, and the data
array of GS_SIZE object references (stored as arena byte offsets). -/
structure SegRec where
  n : Nat
  prev : Nat
  data : List Nat
  deriving DecidableEq

/-- A zeroed segment record, also the content a freshly malloc-ed segment
has in the model. -/
def blankSeg : SegRec := { n := 0, prev := 0, data := List.replicate GS_SIZE 0 }

/-- The heap of gray-stack segments plus the process-wide pool head
spare_gs. nextAddr supplies fresh nonzero malloc addresses; freshCount
counts how many segments were ever obtained from the backing allocator. -/
structure GsHeap where
  segs : List (Nat × SegRec)
  spare : Nat
  nextAddr : Nat
  freshCount : Nat
  deriving DecidableEq

/-- Dereference a segment address in the association list (first match
wins, so a later update shadows the earlier record). -/
def segsFind : List (Nat × SegRec) → Nat → SegRec
  | [], _ => blankSeg
  | (q, s) :: rest, p => if q = p then s else segsFind rest p

/-- Read the segment record stored at address p. -/
def GsHeap.find (h : GsHeap) (p : Nat) : SegRec := segsFind h.segs p

/-- Store a segment record at address p (in-place store update, modelled by
shadowing). -/
def GsHeap.update (h : GsHeap) (p : Nat) (s : SegRec) : GsHeap :=
  { h with segs := (p, s) :: h.segs }

/-- A heap with no segments and an empty pool. -/
def emptyHeap : GsHeap := { segs := [], spare := 0, nextAddr := 16, freshCount := 0 }

/-- struct arena from main.c. used and mark are the two 128-word bitmaps;
the metadata of the unions is read through them (see the header comment).
gray maps an object byte offset to the gray:1 bitfield of the object
header stored in the data region of the block. -/
structure Arena where
  used : List Nat
  mark : List Nat
  gray : Nat → Bool

/-- Two-complement value of a 32-bit pattern: how C reads back an int
whose stored pattern is n % 2^32 (also the gcc/clang meaning of an
out-of-range unsigned-to-int conversion). -/
def toInt32 (n : Nat) : Int :=
  if n % 2 ^ 32 < 2 ^ 31 then ((n % 2 ^ 32 : Nat) : Int)
  else ((n % 2 ^ 32 : Nat) : Int) - 2 ^ 32

/-- a->a.nextcell: the int overlaid on used[] word 0, as its bit
pattern. -/
def Arena.nextcell (a : Arena) : Nat := a.used.getD 0 0

/-- a->a.nextcell read as the signed int the C expressions use. -/
def Arena.nextcellInt (a : Arena) : Int := toInt32 (a.used.getD 0 0)

/-- Store a->a.nextcell (every value the program writes is at most
ARENA_SIZE >> 4 = 4096, far below 2^32). -/
def Arena.setNextcell (a : Arena) (v : Nat) : Arena :=
  { a with used := a.used.set 0 v }

/-- a->a.gs: the segment pointer overlaid on used[] words 2 and 3
(little-endian: word 2 is the low half). -/
def Arena.gs (a : Arena) : Nat := a.used.getD 2 0 + 2 ^ 32 * a.used.getD 3 0

/-- Store a->a.gs. -/
def Arena.setGs (a : Arena) (p : Nat) : Arena :=
  { a with used := (a.used.set 2 (p % 2 ^ 32)).set 3 (p / 2 ^ 32 % 2 ^ 32) }

/-- Write the gray bitfield of the object at byte offset o. -/
def Arena.setGray (a : Arena) (o : Nat) (b : Bool) : Arena :=
  { a with gray := fun x => if x = o then b else a.gray x }

/-- arena_new from main.c, success path: posix_memalign gives a zeroed
(after memset) self-aligned block and nextcell is set to the first cell
past the header, (sizeof(struct arena) + ALLOC_UNIT - 1) >> 4 = 64. The
posix_memalign failure path calls die and yields no arena; it is outside
the claims and not modelled. -/
def arena_new : Arena :=
  let z : Arena := { used := List.replicate numWords 0,
                     mark := List.replicate numWords 0,
                     gray := fun _ => false }
  z.setNextcell ((sizeofArena + ALLOC_UNIT - 1) >>> 4)

/-- int numunits = (objsize + ALLOC_UNIT - 1) >> 4 from main.c: the sum
and shift happen in size_t (mod 2^64), and the result is converted to a
signed int, which wraps (two-complement) once the shifted value reaches
2^31, i.e. for requests of about 2^35 bytes and up. -/
def numunits (objsize : Nat) : Int :=
  toInt32 (((objsize % 2 ^ 64 + (ALLOC_UNIT - 1)) % 2 ^ 64) >>> 4)

/-- arena_alloc from main.c. Returns the struct obj * result (none for the
C null pointer) and the updated arena. objsize is a size_t, taken mod
2^64. The capacity test and the nextcell update use the signed int values
(the Int sum is exact; the C int addition only overflows on requests
whose numunits is near INT_MAX, where the C program has undefined
behavior, and the nextcell store keeps the low 32 bits as the stored
pattern). The source computes the new object o at base + (nextcell << 4)
and initializes o->gray = 0, but its final statement is `return 0`
(main.c line 90), so the first component is none on every path, the
success path included. -/
def arena_alloc (a : Arena) (objsize : Nat) : Option Nat × Arena :=
  if objsize % 2 ^ 64 < sizeofObj then (none, a)
  else
    let nu := numunits objsize
    if ((ARENA_SIZE >>> 4 : Nat) : Int) < a.nextcellInt + nu then (none, a)
    else
      let o := ((a.nextcellInt * 16) % (2 ^ 64 : Int)).toNat
      let a1 := a.setGray o false
      let a2 := a1.setNextcell (((a1.nextcellInt + nu) % (2 ^ 32 : Int)).toNat)
      (none, a2)

/-- gs_get from main.c: pop the pool head, or malloc a fresh segment when
the pool is empty. Returns the segment address. -/
def gs_get (h : GsHeap) : Nat × GsHeap :=
  if h.spare = 0 then
    (h.nextAddr, { segs := (h.nextAddr, blankSeg) :: h.segs,
                   spare := h.spare,
                   nextAddr := h.nextAddr + 16,
                   freshCount := h.freshCount + 1 })
  else
    let gs := h.find h.spare
    (h.spare, { h with spare := gs.prev })

/-- gs_put from main.c, modelled exactly as written there:
`gs->prev = spare_gs; spare_gs = gs->prev;` - the second statement reads
back the value just stored, so the pool head is overwritten with its own
old value. -/
def gs_put (h : GsHeap) (p : Nat) : GsHeap :=
  let s0 := h.find p
  let s1 := { s0 with prev := h.spare }
  let h1 := h.update p s1
  { h1 with spare := s1.prev }

/-- gs_push from main.c: link a new segment when the head is absent or
full, then append o at data[GS_SIZE - ++n]. -/
def gs_push (a : Arena) (h : GsHeap) (o : Nat) : Arena × GsHeap :=
  let step :=
    if a.gs = 0 ∨ (h.find a.gs).n = GS_SIZE then
      let prev := a.gs
      let r := gs_get h
      let a1 := a.setGs r.1
      let h1 := r.2.update r.1 { r.2.find r.1 with n := 0, prev := prev }
      (a1, h1)
    else (a, h)
  let a1 := step.1
  let h1 := step.2
  let s := h1.find a1.gs
  let n1 := s.n + 1
  (a1, h1.update a1.gs { s with n := n1, data := s.data.set (GS_SIZE - n1) o })

/-- gs_pop from main.c: none when the arena has no active segment;
otherwise remove data[GS_SIZE - n], and when the count reaches zero unlink
the segment and hand it to gs_put. The n - 1 here is Nat subtraction; it
agrees with the int decrement of the source on every state with n at least
1, and a live segment with n = 0 is never observable between API calls
(gs_push increments immediately after zeroing, gs_pop releases at zero). -/
def gs_pop (a : Arena) (h : GsHeap) : Option Nat × Arena × GsHeap :=
  let gsp := a.gs
  if gsp = 0 then (none, a, h)
  else
    let s := h.find gsp
    let o := s.data.getD (GS_SIZE - s.n) 0
    let s1 := { s with n := s.n - 1 }
    let h1 := h.update gsp s1
    if s1.n = 0 then (some o, a.setGs s1.prev, gs_put h1 gsp)
    else (some o, a, h1)

/-- The word index both the IS_MARKED and the MARK macro compute from the
cell argument c (which the callers pass as a byte offset): (c) >> 5. -/
def markWordIdx (c : Nat) : Nat := c >>> 5

/-- IS_MARKED(a,c) from main.c: (a)->mark[(c) >> 5] & ((c) & 0x1f). -/
def IS_MARKED (a : Arena) (c : Nat) : Nat :=
  a.mark.getD (markWordIdx c) 0 &&& (c &&& 0x1f)

/-- MARK(a,c) from main.c: (a)->mark[(c) >> 5] |= ((c) & 0x1f). -/
def MARK (a : Arena) (c : Nat) : Arena :=
  let w := markWordIdx c
  { a with mark := a.mark.set w (a.mark.getD w 0 ||| (c &&& 0x1f)) }

/-- write_barrier from main.c. o is the object byte offset; cell is
(size_t)o - (size_t)get_arena(o), which equals o in this offset model.
The C `if (IS_MARKED(a, cell))` is the nonzero test. -/
def write_barrier (a : Arena) (h : GsHeap) (o : Nat) : Arena × GsHeap :=
  if a.gray o then (a, h)
  else
    let a1 := a.setGray o true
    let cell := o
    if IS_MARKED a1 cell ≠ 0 then gs_push a1 h o
    else (a1, h)

/-- mark from main.c: pop one object off the gray stack, return 0 when
there is none, otherwise MARK its cell, clear its gray flag and return 1.
The pointer walk is a TODO placeholder in the source. -/
def mark (a : Arena) (h : GsHeap) : Bool × Arena × GsHeap :=
  match gs_pop a h with
  | (none, a1, h1) => (false, a1, h1)
  | (some o, a1, h1) =>
    let cell := o
    let a2 := MARK a1 cell
    let a3 := a2.setGray o false
    (true, a3, h1)

/-- One iteration of the sweep loop body of main.c: read both words first
(int mark = a->mark[i]; int used = a->used[i]), then store
a->mark[i] = used & mark and a->used[i] = used ^ mark. The pair is
(used words, mark words). -/
def sweepStep (p : List Nat × List Nat) (i : Nat) : List Nat × List Nat :=
  let m := p.2.getD i 0
  let u := p.1.getD i 0
  (p.1.set i (u ^^^ m), p.2.set i (u &&& m))

/-- sweep from main.c: die (none) when a->a.gs is nonnull with nonzero
count, otherwise run the reconciliation loop for
i = sizeof(struct arena) >> 9 (= 2) up to sizeof(a->used)/sizeof(int)
(= 128, exclusive). -/
def sweep (a : Arena) (h : GsHeap) : Option Arena :=
  if a.gs ≠ 0 ∧ (h.find a.gs).n ≠ 0 then none
  else
    let idxs := (List.range numWords).drop (sizeofArena >>> 9)
    let p := idxs.foldl sweepStep (a.used, a.mark)
    some { a with used := p.1, mark := p.2 }

/-- The used bit of allocation cell number cell, read with the one bit per
cell layout the spec ascribes to used[] (bit cell % 32 of word cell / 32).
Stated from the spec wording, to express what the claims assert about the
bitmaps. -/
def usedBitOfCell (a : Arena) (cell : Nat) : Nat :=
  (a.used.getD (cell / 32) 0 >>> (cell % 32)) &&& 1

/-- The mark bit of allocation cell number cell, one bit per cell, as the
spec describes mark[]. -/
def markBitOfCell (a : Arena) (cell : Nat) : Nat :=
  (a.mark.getD (cell / 32) 0 >>> (cell % 32)) &&& 1

/- ------------------------------------------------------------------ -/
/- Concrete states used by the claim theorems.                         -/
/- ------------------------------------------------------------------ -/

/-- The arena after one arena_alloc of 32 bytes from a fresh arena: the
call carves cells 64 and 65 (nextcell 64 to 66). -/
def allocOnce : Arena := (arena_alloc arena_new 32).2

/-- Pre-sweep bitmap state: cell 128 (word 4 bit 0) is used-and-marked,
cell 160 (word 5 bit 0) is used-but-unmarked; gray stack null. -/
def sweepBugArena : Arena :=
  { used := ((List.replicate numWords 0).set 4 1).set 5 1,
    mark := (List.replicate numWords 0).set 4 1,
    gray := fun _ => false }

/-- The arena sweep produces from sweepBugArena. -/
def sweptBugArena : Arena := (sweep sweepBugArena emptyHeap).getD arena_new

/-- Pre-sweep state whose mark[] word 2 is nonzero while the gray-stack
head (used[] words 2 and 3) is null. -/
def sweepClobberArena : Arena :=
  { used := List.replicate numWords 0,
    mark := (List.replicate numWords 0).set 2 5,
    gray := fun _ => false }

/-- An arena whose gray stack is the single segment at address 16 holding
one pending object, the object at byte offset 1024 (cell 64), which is
gray as a pushed object is. -/
def markBugArena : Arena :=
  { used := (List.replicate numWords 0).set 2 16,
    mark := List.replicate numWords 0,
    gray := fun x => x == 1024 }

/-- The segment heap for markBugArena: address 16 holds one entry, the
object at byte offset 1024, stored at data[GS_SIZE - 1]. -/
def markBugHeap : GsHeap :=
  { segs := [(16, { n := 1, prev := 0,
                    data := (List.replicate GS_SIZE 0).set (GS_SIZE - 1) 1024 })],
    spare := 0, nextAddr := 32, freshCount := 1 }

/-- An arena with no gray stack whose mark bitmap has the bit of cell 64
set (word 2 bit 0); the object at byte offset 1024 occupies cell 64 and
its gray flag is clear. -/
def wbBugArena : Arena :=
  { used := List.replicate numWords 0,
    mark := (List.replicate numWords 0).set 2 1,
    gray := fun _ => false }

/-- A heap holding one idle segment at address 16 with an empty pool. -/
def poolHeap : GsHeap :=
  { segs := [(16, blankSeg)], spare := 0, nextAddr := 32, freshCount := 1 }

/-- An arena whose gray stack head is the segment at address 16. -/
def sweepDieArena : Arena := arena_new.setGs 16

/-- A heap whose segment at address 16 holds one pending entry. -/
def sweepDieHeap : GsHeap := emptyHeap.update 16 { blankSeg with n := 1 }

/- ------------------------------------------------------------------ -/
/- Claim theorems.                                                     -/
/- ------------------------------------------------------------------ -/

/-- C1: arena_alloc on a request that passes both checks is claimed to
return the newly carved object. The code reaches the success path on a
fresh arena with a 32-byte request (nextcell advances from 64 to 66, so
cells were carved), yet the returned value is the none sentinel: the
source ends with `return 0` instead of `return o`. The repository driver
itself trips over this (main dies on !o on every run). -/
theorem arena_alloc_success_path_returns_none :
    (arena_alloc arena_new 32).1 = none ∧
    arena_new.nextcell = 64 ∧
    (arena_alloc arena_new 32).2.nextcell = 66 := by decide

/-- C2: sweep is claimed to keep used-and-marked cells used with mark
cleared and to free used-but-unmarked cells. On a state where cell 128 is
used-and-marked and cell 160 is used-but-unmarked, the code instead frees
cell 128 (its used bit ends 0, its mark bit ends 1) and keeps cell 160
used: the loop body stores used & mark into mark[] and used ^ mark into
used[], the reverse of the spec formula. -/
theorem sweep_swaps_used_and_mark :
    (sweep sweepBugArena emptyHeap).isSome = true ∧
    usedBitOfCell sweepBugArena 128 = 1 ∧ markBitOfCell sweepBugArena 128 = 1 ∧
    usedBitOfCell sweepBugArena 160 = 1 ∧ markBitOfCell sweepBugArena 160 = 0 ∧
    usedBitOfCell sweptBugArena 128 = 0 ∧ markBitOfCell sweptBugArena 128 = 1 ∧
    usedBitOfCell sweptBugArena 160 = 1 := by decide

/-- C3: every successfully carved cell is claimed to have its used bit
set. arena_alloc of 32 bytes on a fresh arena carves cells 64 and 65
(nextcell goes 64 to 66) but never writes the used bitmap: both used bits
are still 0 afterwards. -/
theorem arena_alloc_leaves_used_bits_clear :
    arena_new.nextcell = 64 ∧ allocOnce.nextcell = 66 ∧
    usedBitOfCell allocOnce 64 = 0 ∧ usedBitOfCell allocOnce 65 = 0 := by decide

/-- C4: mark on a non-empty gray stack is claimed to set the mark bit of
the popped object allocation cell. Popping the object at byte offset 1024
(cell 64), the code ORs (1024 & 0x1f) = 0 into mark[1024 >> 5] = mark[32]:
the mark bitmap is left completely unchanged and the bit of cell 64 stays
0, although the pop happens, the gray flag is cleared and 1 is returned. -/
theorem mark_does_not_set_cell_bit :
    (mark markBugArena markBugHeap).1 = true ∧
    (mark markBugArena markBugHeap).2.1.mark = markBugArena.mark ∧
    markBitOfCell (mark markBugArena markBugHeap).2.1 64 = 0 ∧
    (mark markBugArena markBugHeap).2.1.gray 1024 = false := by decide

/-- C5: sweep is claimed to leave the overlaid header fields, the
gray-stack head among them, unchanged. The loop starts at word
sizeof(struct arena) >> 9 = 2, but the 16-byte metadata overlay spans
words 0..3, so sweep rewrites used[2] and used[3], the words that hold
the gray-stack head pointer: from a state with mark[2] = 5 and a null
head, sweep turns the head into the junk pointer 5 (while nextcell, in
the skipped word 0, is indeed preserved). -/
theorem sweep_rewrites_gray_stack_head :
    sweepClobberArena.gs = 0 ∧
    (sweep sweepClobberArena emptyHeap).isSome = true ∧
    ((sweep sweepClobberArena emptyHeap).getD arena_new).gs = 5 ∧
    ((sweep sweepClobberArena emptyHeap).getD arena_new).nextcell =
      sweepClobberArena.nextcell := by decide

/-- C6: gs_put is claimed to make the released segment the pool head so a
later gs_get reuses it. The code stores spare_gs into gs->prev and then
reads it straight back into spare_gs, leaving the pool unchanged on every
heap (first conjunct, definitional); concretely, releasing the segment at
address 16 into an empty pool leaves the pool empty, and the next gs_get
draws a brand new segment from the backing allocator (freshCount grows),
so overflow segments are leaked rather than recycled. -/
theorem gs_put_leaks_segment :
    (∀ h p, (gs_put h p).spare = h.spare) ∧
    (gs_put poolHeap 16).spare = 0 ∧
    (gs_get (gs_put poolHeap 16)).1 = 32 ∧
    (gs_get (gs_put poolHeap 16)).2.freshCount = 2 :=
  ⟨fun _ _ => rfl, by decide, by decide, by decide⟩

/-- C7: write_barrier on a non-gray object is claimed to push it exactly
when the mark bit of its allocation cell is set. For the object at byte
offset 1024 (cell 64) with that cell bit set (mark word 2 = 1), the code
tests mark[1024 >> 5] & (1024 & 0x1f) = mark[32] & 0 = 0 and does not
push: the heap is untouched and the arena gray-stack head stays null,
though the gray flag is set. -/
theorem write_barrier_misses_marked_object :
    markBitOfCell wbBugArena 64 = 1 ∧
    (write_barrier wbBugArena emptyHeap 1024).1.gray 1024 = true ∧
    (write_barrier wbBugArena emptyHeap 1024).2 = emptyHeap ∧
    (write_barrier wbBugArena emptyHeap 1024).1.gs = 0 := by decide

/-- C8: the word index (c) >> 5 of the MARK and IS_MARKED macros is
claimed to stay inside the mark array for every valid object. The object
at byte offset 4096 sits in cell 256, an allocatable cell (at or past the
first free cell 64 of a fresh arena and below capacity 4096), yet its
word index is 128, exactly the length of the 128-word mark array (first
out-of-bounds slot); the last cell of the arena drives it to 2047. -/
theorem mark_word_index_out_of_bounds :
    markWordIdx (256 * ALLOC_UNIT) = numWords ∧
    arena_new.mark.length = numWords ∧
    arena_new.nextcell ≤ 256 ∧ 256 < ARENA_SIZE / ALLOC_UNIT ∧
    markWordIdx (4095 * ALLOC_UNIT) = 2047 := by decide

/-- toInt32 is the identity on values below 2^31. -/
theorem toInt32_of_lt (n : Nat) (h : n < 2 ^ 31) : toInt32 n = n := by
  have h32 : n < 2 ^ 32 := lt_trans h (by norm_num)
  unfold toInt32
  rw [Nat.mod_eq_of_lt h32, if_pos h]

/-- For requests whose cell count fits in a signed int, numunits is the
exact cell count (objsize + 15) >> 4. -/
theorem numunits_small (objsize : Nat)
    (h : objsize % 2 ^ 64 + (ALLOC_UNIT - 1) < 2 ^ 35) :
    numunits objsize =
      (((objsize % 2 ^ 64 + (ALLOC_UNIT - 1)) >>> 4 : Nat) : Int) := by
  have h64 : objsize % 2 ^ 64 + (ALLOC_UNIT - 1) < 2 ^ 64 :=
    lt_trans h (by norm_num)
  have hsh : (objsize % 2 ^ 64 + (ALLOC_UNIT - 1)) >>> 4 < 2 ^ 31 := by
    rw [Nat.shiftRight_eq_div_pow]
    omega
  unfold numunits
  rw [Nat.mod_eq_of_lt h64]
  exact toInt32_of_lt _ hsh

/-- C9 counterexample: a request of 2^35 bytes on a fresh arena has a true
cell count of 2^31 cells, overrunning the whole 4096-cell capacity, yet
arena_alloc does not take the no-room path unchanged: the size_t-to-int
conversion makes numunits the negative int -2^31, the capacity test
passes, and the success path runs, mutating next_free_cell (its stored
word becomes 2147483712, the pattern of 64 - 2^31) and the gray byte. -/
theorem arena_alloc_capacity_wraps_at_huge_request :
    ARENA_SIZE >>> 4 < ((2 ^ 35 : Nat) % 2 ^ 64 + (ALLOC_UNIT - 1)) >>> 4 ∧
    arena_new.nextcell = 64 ∧
    numunits (2 ^ 35) = -(2 ^ 31) ∧
    (arena_alloc arena_new (2 ^ 35)).2.nextcell = 2147483712 := by decide

/-- C9 (amended): both recoverable failure paths of arena_alloc return
the none sentinel and leave the arena (nextcell, both bitmaps, gray
flags) exactly unchanged: a request below sizeof(struct obj) = 1 byte,
and a request whose cell count would push nextcell past the capacity
ARENA_SIZE >> 4 = 4096 - the latter provided the cell count fits in a
signed int (request below about 2^35 bytes) and nextcell is in its
reachable int range, since for larger requests the converted cell count
wraps negative and the overrunning request takes the success path
instead. Both returns happen before any store. -/
theorem arena_alloc_failure_paths_atomic (a : Arena) (objsize : Nat) :
    (objsize % 2 ^ 64 < sizeofObj → arena_alloc a objsize = (none, a)) ∧
    (sizeofObj ≤ objsize % 2 ^ 64 → a.nextcell < 2 ^ 31 →
      objsize % 2 ^ 64 + (ALLOC_UNIT - 1) < 2 ^ 35 →
      ARENA_SIZE >>> 4 <
        a.nextcell + ((objsize % 2 ^ 64 + (ALLOC_UNIT - 1)) >>> 4) →
      arena_alloc a objsize = (none, a)) := by
  refine ⟨fun hs => ?_, fun h1 hw hfit hover => ?_⟩
  · simp only [arena_alloc, if_pos hs]
  · have h3 : ¬ objsize % 2 ^ 64 < sizeofObj := Nat.not_lt.mpr h1
    have hc : a.nextcellInt = (a.nextcell : Int) := toInt32_of_lt _ hw
    have hg : ((ARENA_SIZE >>> 4 : Nat) : Int) <
        a.nextcellInt + numunits objsize := by
      rw [hc, numunits_small objsize hfit]
      exact_mod_cast hover
    simp only [arena_alloc, if_neg h3, if_pos hg]

/-- Witness for C9: the zero-size request on a fresh arena, and a 32-byte
request on an arena whose nextcell already equals the capacity. -/
theorem arena_alloc_failure_paths_atomic_witness :
    arena_alloc arena_new 0 = (none, arena_new) ∧
    arena_alloc (arena_new.setNextcell 4096) 32 =
      (none, arena_new.setNextcell 4096) :=
  ⟨(arena_alloc_failure_paths_atomic arena_new 0).1 (by decide),
   (arena_alloc_failure_paths_atomic (arena_new.setNextcell 4096) 32).2
     (by decide) (by decide) (by decide) (by decide)⟩

/-- C10: sweep on an arena whose gray stack is non-empty (a live head
segment with nonzero count) takes the die path: it returns no arena and
performs no bitmap reconciliation. -/
theorem sweep_nonempty_gray_stack_dies (a : Arena) (h : GsHeap)
    (h1 : a.gs ≠ 0) (h2 : (h.find a.gs).n ≠ 0) : sweep a h = none := by
  simp [sweep, h1, h2]

/-- Witness for C10: an arena whose head segment at address 16 holds one
pending entry. -/
theorem sweep_nonempty_gray_stack_dies_witness :
    sweep sweepDieArena sweepDieHeap = none :=
  sweep_nonempty_gray_stack_dies sweepDieArena sweepDieHeap
    (by decide) (by decide)
